import Mathlib

/-!
Verification development for the wig-editor canvas daemon.

The definitions below are a shallow embedding of the daemon sources:
the error taxonomy (ErrorCodes module), the visual-diff engine of
BrowserManager (takeDiff, resolveBaselinePath, computeDiff,
computeRegionsFromDiffMask, pickMostRecentScreenshot, summarizeRegions,
getSelectorCandidates), and the DaemonServer request plumbing
(handleMessage, handleConnect, handleDiff, resetUiReadyTimers).

External platform primitives that are not part of the repository
(JSON.parse, Date.parse, the playwright browser, the filesystem) are
modelled as explicit parameters or as explicit state passed through the
functions. Machine floats of the pixel comparison are modelled as exact
rationals.
-/

deriving instance DecidableEq for Except

namespace Wig

/-! ### String helpers (models of JS string primitives) -/

/-- JS String.prototype.includes: sub occurs contiguously in s. -/
def subOccurs (sub : List Char) : List Char → Bool
  | [] => sub.isEmpty
  | c :: rest => sub.isPrefixOf (c :: rest) || subOccurs sub rest

/-- s.includes(sub) for JS strings. -/
def strContainsSub (s sub : String) : Bool :=
  subOccurs sub.data s.data

/-- Lower-casing of a string, character by character. -/
def strLower (s : String) : String :=
  ⟨s.data.map Char.toLower⟩

/-- Case-insensitive substring containment (the relation the spec talks
about when it says "contains \"timeout\" (case-insensitive)"). -/
def containsInsensitive (s sub : String) : Bool :=
  strContainsSub (strLower s) (strLower sub)

/-- s.endsWith(suffix) for JS strings. -/
def strEndsWith (s suffix : String) : Bool :=
  suffix.data.isSuffixOf s.data

/-- First character of a string is a slash: node path.isAbsolute on posix. -/
def headIsSlash (s : String) : Bool :=
  match s.data with
  | [] => false
  | c :: _ => c = '/'

/-- Whitespace test for the trim model. -/
def isWsChar (c : Char) : Bool :=
  c = ' ' || c = '\t' || c = '\n' || c = '\r'

/-- JS String.prototype.trim, modelled over the character list. -/
def strTrim (s : String) : String :=
  ⟨((s.data.dropWhile isWsChar).reverse.dropWhile isWsChar).reverse⟩

/-! ### Error taxonomy (src/unnamed/part_003, ErrorCodes and helpers) -/

structure CanvasErrorData where
  category : String
  retryable : Bool
  param : Option String := none
  suggestion : Option String := none
deriving DecidableEq

structure CanvasError where
  code : Nat
  message : String
  data : CanvasErrorData
deriving DecidableEq

def PROTOCOL_VERSION_MISMATCH : Nat := 1006
def NAVIGATION_TIMEOUT : Nat := 2004
def NAVIGATION_FAILED : Nat := 2005
def PAGE_NOT_READY : Nat := 2006
def INPUT_INVALID : Nat := 5001
def INPUT_MISSING : Nat := 5002
def INPUT_TIMESTAMP_INVALID : Nat := 5003
def INPUT_ENUM_INVALID : Nat := 5004
def INTERNAL_ERROR : Nat := 9001

/-- createError from the error module. -/
def createError (code : Nat) (message : String) (data : CanvasErrorData) : CanvasError :=
  ⟨code, message, data⟩

/-- createInputError: category input, not retryable, names the offending param. -/
def createInputError (code : Nat) (message : String) (param : String)
    (suggestion : Option String) : CanvasError :=
  createError code message ⟨"input", false, some param, suggestion⟩

/-- createTimeoutError: category timeout, retryable defaults to true. -/
def createTimeoutError (code : Nat) (message : String) (suggestion : Option String) :
    CanvasError :=
  createError code message ⟨"timeout", true, none, suggestion⟩

/-- A thrown JS value: either a CanvasError plain object (thrown by
createInputError call sites) or an Error instance carrying a message. -/
inductive Thrown where
  | canvasErr (e : CanvasError)
  | jsError (message : String)
deriving DecidableEq

/-- What `err instanceof Error ? err.message : String(err)` produces in the
catch blocks of the server: a plain-object CanvasError stringifies to
"[object Object]". -/
def thrownMessageForCatch : Thrown → String
  | .jsError m => m
  | .canvasErr _ => "[object Object]"

/-! ### Exact fractions

Floating-point quantities of the diff engine (thresholds, mismatch
ratios) are modelled as exact unnormalized fractions over the integers,
so that every computation stays kernel-evaluable. -/

/-- An exact fraction; the uses below keep the denominator positive. -/
structure Frac where
  num : Int
  den : Int
deriving DecidableEq

/-- The fraction zero, as the source literal 0. -/
def fracZero : Frac := ⟨0, 1⟩

/-- The default per-pixel threshold 0.1. -/
def defaultThreshold : Frac := ⟨1, 10⟩

/-! ### Images and the pixel comparison

Modelled from the spec: the per-pixel comparison is performed by the
external pixelmatch library, whose source is not part of this repository.
The spec describes it at its interface: a tunable perceptual threshold in
[0,1], where a higher threshold tolerates more per-channel difference
before a pixel counts as mismatched. The model below follows the
published pixelmatch algorithm (YIQ perceptual delta against the bound
35215 * threshold^2), with the arithmetic cleared of denominators so it
runs in exact integers, and without the optional antialiasing detection,
which the spec does not mention. -/

structure Pixel where
  r : Nat
  g : Nat
  b : Nat
  a : Nat
deriving DecidableEq

/-- A raster image: row-major pixel list. -/
structure Image where
  width : Nat
  height : Nat
  data : List Pixel
deriving DecidableEq

/-- Pixel at (x, y); out-of-range indices read as a fully transparent
zero pixel, matching the `(a ?? 0)` guard in the scanning code. -/
def pixelAt (img : Image) (x y : Nat) : Pixel :=
  img.data.getD (y * img.width + x) ⟨0, 0, 0, 0⟩

/-- One channel alpha-blended onto white, scaled by 255:
255 * (255 + (c - 255) * a / 255). -/
def blendScaled (c a : Nat) : Int := 255 * 255 + ((c : Int) - 255) * (a : Int)

/-- Y (luma) numerator at scale 255 * 10^8 over blended channels. -/
def yNum (r g b : Int) : Int := r * 29889531 + g * 58662247 + b * 11448223

/-- I numerator at scale 255 * 10^8 over blended channels. -/
def iNum (r g b : Int) : Int := r * 59597799 - g * 27417610 - b * 32180189

/-- Q numerator at scale 255 * 10^8 over blended channels. -/
def qNum (r g b : Int) : Int := r * 21147017 - g * 52261711 + b * 31114694

/-- Perceptual YIQ color distance between two RGBA pixels, scaled by
deltaScale = 255^2 * 10^20: the exact value of
0.5053 * dy^2 + 0.299 * di^2 + 0.1957 * dq^2 times that scale. -/
def colorDeltaNum (p q : Pixel) : Int :=
  let r1 := blendScaled p.r p.a
  let g1 := blendScaled p.g p.a
  let b1 := blendScaled p.b p.a
  let r2 := blendScaled q.r q.a
  let g2 := blendScaled q.g q.a
  let b2 := blendScaled q.b q.a
  let dy := yNum r1 g1 b1 - yNum r2 g2 b2
  let di := iNum r1 g1 b1 - iNum r2 g2 b2
  let dq := qNum r1 g1 b1 - qNum r2 g2 b2
  5053 * (dy * dy) + 2990 * (di * di) + 1957 * (dq * dq)

/-- The common denominator of colorDeltaNum: 255^2 * 10^20. -/
def deltaScale : Int := 6502500000000000000000000

/-- A pixel pair counts as mismatched when its perceptual distance
exceeds 35215 * threshold^2; both sides are multiplied by
threshold.den^2 * deltaScale to stay in the integers. -/
def pixelMismatchB (t : Frac) (p q : Pixel) : Bool :=
  decide (colorDeltaNum p q * (t.den * t.den) > 35215 * (t.num * t.num) * deltaScale)

/-- Number of mismatched pixels between two equally long pixel streams. -/
def pixelmatchCount (xs ys : List Pixel) (t : Frac) : Nat :=
  (xs.zip ys).countP (fun pq => pixelMismatchB t pq.1 pq.2)

/-- One output pixel of the diff image: mismatched pixels are drawn as
opaque red markers, matched pixels as an opaque faded gray (the raw luma
blended onto white by 0.1 * alpha, truncated to a byte). -/
def pixelmatchDiffPixel (t : Frac) (p q : Pixel) : Pixel :=
  if pixelMismatchB t p q then ⟨255, 0, 0, 255⟩
  else
    let yn := yNum (p.r : Int) (p.g : Int) (p.b : Int)
    let v := (255 * 255000000000 + (yn - 25500000000) * (p.a : Int)) / 255000000000
    let g := v.toNat
    ⟨g, g, g, 255⟩

/-- The diff image written next to the mismatch count. -/
def pixelmatchDiffImage (b c : Image) (t : Frac) : Image :=
  ⟨b.width, b.height, (b.data.zip c.data).map (fun pq => pixelmatchDiffPixel t pq.1 pq.2)⟩

/-! ### Region extraction (BrowserManager.computeRegionsFromDiffMask) -/

structure BoundingBox where
  x : Int
  y : Int
  width : Int
  height : Int
deriving DecidableEq

/-- One step of the bounding scan: on a pixel with non-zero alpha each of
minX, minY, maxX, maxY is updated independently, as in the source loop. -/
def scanStep (diff : Image) (st : Int × Int × Int × Int) (xy : Nat × Nat) :
    Int × Int × Int × Int :=
  let a := (pixelAt diff xy.1 xy.2).a
  if a > 0 then
    (if (xy.1 : Int) < st.1 then (xy.1 : Int) else st.1,
     if (xy.2 : Int) < st.2.1 then (xy.2 : Int) else st.2.1,
     if (xy.1 : Int) > st.2.2.1 then (xy.1 : Int) else st.2.2.1,
     if (xy.2 : Int) > st.2.2.2 then (xy.2 : Int) else st.2.2.2)
  else st

/-- Row-major list of all pixel coordinates of an image, mirroring the
nested y-then-x loops of the source. -/
def allCoords (diff : Image) : List (Nat × Nat) :=
  (List.range diff.height).flatMap (fun y => (List.range diff.width).map (fun x => (x, y)))

/-- BrowserManager.computeRegionsFromDiffMask: empty when the mismatch
count is zero, otherwise a single box spanning the extremes of all pixels
with non-zero alpha; the initial accumulator is (width, height, -1, -1). -/
def computeRegionsFromDiffMask (diff : Image) (mismatchedPixels : Nat) : List BoundingBox :=
  if mismatchedPixels = 0 then []
  else
    let st := (allCoords diff).foldl (scanStep diff)
      ((diff.width : Int), (diff.height : Int), -1, -1)
    if st.2.2.1 < 0 ∨ st.2.2.2 < 0 then []
    else [⟨st.1, st.2.1, st.2.2.1 - st.1 + 1, st.2.2.2 - st.2.1 + 1⟩]

/-! ### Pixel comparison wrapper (BrowserManager.computeDiff) -/

structure DiffComputation where
  mismatchedPixels : Nat
  mismatchedRatio : Frac
  regions : List BoundingBox
  diffImage : Image
deriving DecidableEq

/-- BrowserManager.computeDiff: dimension mismatch is a thrown Error;
otherwise the pixel comparison runs at the given threshold and the region
scan runs over the produced diff image; the ratio is count over total
pixels. -/
def computeDiff (baseline current : Image) (threshold : Frac) : Except Thrown DiffComputation :=
  if baseline.width ≠ current.width ∨ baseline.height ≠ current.height then
    .error (.jsError "Image dimensions must match.")
  else
    let diff := pixelmatchDiffImage baseline current threshold
    let mm := pixelmatchCount baseline.data current.data threshold
    .ok ⟨mm, ⟨(mm : Int), ((baseline.width * baseline.height : Nat) : Int)⟩,
         computeRegionsFromDiffMask diff mm, diff⟩

/-- Default viewport of the daemon (DEFAULT_VIEWPORT). -/
def DEFAULT_VIEWPORT_WIDTH : Nat := 1280
def DEFAULT_VIEWPORT_HEIGHT : Nat := 720

/-- BrowserManager.summarizeRegions. The float comparison
x + width / 2 < viewportWidth / 2 is cleared of the halves:
2 * x + width < viewportWidth (exact for these values). -/
def summarizeRegions (regions : List BoundingBox) : String :=
  match regions with
  | [] => "No visual changes detected."
  | first :: _ =>
    let largest := regions.foldl
      (fun acc r => if r.width * r.height > acc.width * acc.height then r else acc) first
    let horiz := if 2 * largest.x + largest.width < (DEFAULT_VIEWPORT_WIDTH : Int)
      then "left" else "right"
    let vert := if 2 * largest.y + largest.height < (DEFAULT_VIEWPORT_HEIGHT : Int)
      then "top" else "bottom"
    toString regions.length ++ " region(s) changed; largest change near " ++
      vert ++ "-" ++ horiz ++ "."

/-! ### Diff-engine filesystem state

The artifacts the diff engine touches live under cwd/.canvas. The state
below carries the screenshots directory as a name-to-image listing, the
baseline-pointer marker file, the appended manifest records and the
written diff images. Writes replace any previous file of the same name. -/

/-- Content of .canvas/diffs/baseline.json: missing, present but not
parseable as a record with a baselinePath, or parsed. -/
inductive MarkerFile where
  | absent
  | unparseable
  | parsed (baselinePath : String) (updatedAt : String)
deriving DecidableEq

structure ManifestRecord where
  ts : String
  baselinePath : String
  currentPath : String
  diffPath : String
  mismatchedPixels : Nat
  mismatchedRatio : Frac
  regions : List BoundingBox
  threshold : Frac
  baselineInitialized : Bool
  url : Option String
  selector : Option String
deriving DecidableEq

structure FsState where
  shots : List (String × Image)
  marker : MarkerFile
  manifest : List ManifestRecord
  diffFiles : List (String × Image)
deriving DecidableEq

def screenshotsDir (cwd : String) : String := cwd ++ "/.canvas/screenshots"
def diffsDir (cwd : String) : String := cwd ++ "/.canvas/diffs"
def shotPath (cwd name : String) : String := screenshotsDir cwd ++ "/" ++ name
def baselineDefaultPath (cwd : String) : String := shotPath cwd "baseline.png"
def baselineMarkerPath (cwd : String) : String := diffsDir cwd ++ "/baseline.json"

/-- Write a file into the screenshots directory, replacing a same-named file. -/
def writeShot (st : FsState) (name : String) (img : Image) : FsState :=
  { st with shots := (name, img) :: st.shots.filter (fun e => !decide (e.1 = name)) }

/-- Content of the screenshots-directory file with the given name. -/
def shotNamed (st : FsState) (name : String) : Option Image :=
  (st.shots.find? (fun e => decide (e.1 = name))).map (·.2)

/-- Content of the file at an absolute path, when it is a screenshot path. -/
def fileAtPath (st : FsState) (cwd p : String) : Option Image :=
  (st.shots.find? (fun e => decide (shotPath cwd e.1 = p))).map (·.2)

/-- existsSync on the modelled filesystem. -/
def pathExists (st : FsState) (cwd p : String) : Bool :=
  (fileAtPath st cwd p).isSome

/-- BrowserManager.toAbsolutePath: node isAbsolute / resolve for the posix
case without dot-segment normalization (the paths used here need none). -/
def toAbsolutePath (cwd maybePath : String) : String :=
  if headIsSlash maybePath then maybePath else cwd ++ "/" ++ maybePath

/-- BrowserManager.pickMostRecentScreenshot: .png entries other than
baseline.png, sorted descending by name, first entry; selecting the
lexicographically greatest name is that sort-then-head. -/
def pickMostRecentScreenshot (st : FsState) (cwd : String) : Option String :=
  let names := (st.shots.map (·.1)).filter
    (fun n => strEndsWith n ".png" && !decide (n = "baseline.png"))
  match names with
  | [] => none
  | n :: rest => some (shotPath cwd (rest.foldl (fun acc m => if acc < m then m else acc) n))

/-- Reverse of the timestamp sanitization applied to a screenshot file
name before Date.parse: strip ".png", then every dash becomes a colon. -/
def unsanitizeName (name : String) : String :=
  ⟨((name.data.reverse.drop 4).reverse).map (fun c => if c = '-' then ':' else c)⟩

/-- BrowserManager.pickScreenshotAtOrBefore: among parseable screenshot
names with timestamp at or before the target, the most recent. -/
def pickScreenshotAtOrBefore (parseDate : String → Option Int) (st : FsState)
    (cwd : String) (targetMs : Int) : Option String :=
  let cands := (st.shots.map (·.1)).filterMap (fun n =>
    if strEndsWith n ".png" && !decide (n = "baseline.png") then
      match parseDate (unsanitizeName n) with
      | some ts => if ts ≤ targetMs then some (n, ts) else none
      | none => none
    else none)
  match cands with
  | [] => none
  | c :: rest => some (shotPath cwd
      (rest.foldl (fun acc m => if acc.2 < m.2 then m else acc) c).1)

/-- BrowserManager.resolveBaselinePath. parseDate models Date.parse (none
for NaN). An explicit unparseable since throws the 5003 input error; the
marker branch falls through on any read or parse failure. -/
def resolveBaselinePath (parseDate : String → Option Int) (st : FsState)
    (cwd : String) (since : Option String) : Except Thrown (Option String) :=
  if (match since with
      | some s => !decide (s = "") && !decide (s = "last")
      | none => false) then
    match since with
    | some s =>
      match parseDate s with
      | none => .error (.canvasErr (createInputError INPUT_TIMESTAMP_INVALID
          ("Invalid --since timestamp: " ++ s) "since"
          (some "Use ISO 8601 format (e.g. 2026-01-14T10:00:00Z) or \"last\".")))
      | some ts => .ok (pickScreenshotAtOrBefore parseDate st cwd ts)
    | none => .ok none
  else
    match st.marker with
    | .parsed bp _ =>
      let abs := toAbsolutePath cwd bp
      if pathExists st cwd abs then .ok (some abs)
      else .ok (pickMostRecentScreenshot st cwd)
    | _ => .ok (pickMostRecentScreenshot st cwd)

/-! ### takeDiff (BrowserManager.takeDiff) -/

structure DiffOptions where
  cwd : String
  selector : Option String
  since : Option String
  threshold : Option Frac
deriving DecidableEq

structure DiffResult where
  baselinePath : String
  currentPath : String
  diffPath : String
  mismatchedPixels : Nat
  mismatchedRatio : Frac
  regions : List BoundingBox
  baselineInitialized : Bool
  threshold : Frac
  summary : String
deriving DecidableEq

/-- The ISO timestamp with colons and dots replaced by dashes, used for
artifact file names. -/
def sanitizeTs (nowIso : String) : String :=
  ⟨nowIso.data.map (fun c => if c = ':' ∨ c = '.' then '-' else c)⟩

/-- node path.relative for the only shape the manifest needs: a path under
the base directory is stripped to its suffix, anything else is kept as is
(the source stores such paths unchanged up to dot-segments). -/
def relativePath (base p : String) : String :=
  if (base ++ "/").data.isPrefixOf p.data then ⟨p.data.drop (base.data.length + 1)⟩ else p

/-- BrowserManager.appendDiffManifest: one record appended to
manifest.jsonl with artifact paths relativized to the diffs directory. -/
def appendDiffManifest (st : FsState) (cwd : String) (record : ManifestRecord) : FsState :=
  { st with manifest := st.manifest ++
      [{ record with
          baselinePath := relativePath (diffsDir cwd) record.baselinePath,
          currentPath := relativePath (diffsDir cwd) record.currentPath,
          diffPath := if record.diffPath = "" then "" else
            relativePath (diffsDir cwd) record.diffPath }] }

/-- BrowserManager.takeDiff. pageRender is the image the capture of the
current page (for the requested selector) produces; nowIso the current
ISO timestamp; pageUrl the connected URL recorded in the manifest.
Resolution runs before the capture, exactly as in the source. On a throw
the partial filesystem writes are not carried in the returned value. -/
def takeDiff (parseDate : String → Option Int) (st : FsState) (opts : DiffOptions)
    (pageRender : Image) (nowIso pageUrl : String) :
    Except Thrown (DiffResult × FsState) :=
  let threshold := opts.threshold.getD defaultThreshold
  match resolveBaselinePath parseDate st opts.cwd opts.since with
  | .error t => .error t
  | .ok baselineResolved =>
    let timestampSafe := sanitizeTs nowIso
    let currentName := timestampSafe ++ ".png"
    let currentPath := shotPath opts.cwd currentName
    let st1 := writeShot st currentName pageRender
    match baselineResolved with
    | none =>
      let st2 := { st1 with marker := .parsed (baselineDefaultPath opts.cwd) nowIso }
      let st3 := writeShot st2 "baseline.png" pageRender
      let result : DiffResult :=
        { baselinePath := baselineDefaultPath opts.cwd
          currentPath := currentPath
          diffPath := ""
          mismatchedPixels := 0
          mismatchedRatio := fracZero
          regions := []
          baselineInitialized := true
          threshold := threshold
          summary := "No baseline existed; baseline initialized." }
      let st4 := appendDiffManifest st3 opts.cwd
        { ts := nowIso, baselinePath := result.baselinePath,
          currentPath := result.currentPath, diffPath := result.diffPath,
          mismatchedPixels := result.mismatchedPixels,
          mismatchedRatio := result.mismatchedRatio, regions := result.regions,
          threshold := threshold, baselineInitialized := true,
          url := some pageUrl, selector := opts.selector }
      .ok (result, st4)
    | some baselinePath =>
      match fileAtPath st1 opts.cwd baselinePath with
      | none => .error (.jsError "ENOENT: no such file or directory")
      | some baselineImg =>
        match computeDiff baselineImg pageRender threshold with
        | .error t => .error t
        | .ok comp =>
          let diffName := timestampSafe ++ ".diff.png"
          let diffPath := diffsDir opts.cwd ++ "/" ++ diffName
          let st2 := { st1 with diffFiles := (diffName, comp.diffImage) ::
            st1.diffFiles.filter (fun e => !decide (e.1 = diffName)) }
          let st3 := { st2 with marker := .parsed (baselineDefaultPath opts.cwd) nowIso }
          let st4 := writeShot st3 "baseline.png" pageRender
          let result : DiffResult :=
            { baselinePath := baselinePath
              currentPath := currentPath
              diffPath := diffPath
              mismatchedPixels := comp.mismatchedPixels
              mismatchedRatio := comp.mismatchedRatio
              regions := comp.regions
              baselineInitialized := false
              threshold := threshold
              summary := summarizeRegions comp.regions }
          let st5 := appendDiffManifest st4 opts.cwd
            { ts := nowIso, baselinePath := result.baselinePath,
              currentPath := result.currentPath, diffPath := result.diffPath,
              mismatchedPixels := result.mismatchedPixels,
              mismatchedRatio := result.mismatchedRatio, regions := result.regions,
              threshold := threshold, baselineInitialized := false,
              url := some pageUrl, selector := opts.selector }
          .ok (result, st5)

/-! ### Wire responses and the diff handler (DaemonServer.handleDiff) -/

/-- One framed response on the wire. Success payloads are summarized as a
string; the claims under verification only inspect failure envelopes. -/
inductive WireResponse where
  | success (id : String) (payload : String)
  | failure (id : String) (error : CanvasError)
deriving DecidableEq

/-- DaemonServer.handleDiff: requires a connected page, then calls
takeDiff; every thrown value is caught and rewrapped as INTERNAL_ERROR
with the instanceof-Error message extraction. -/
def handleDiff (parseDate : String → Option Int) (connected : Bool) (st : FsState)
    (id : String) (opts : DiffOptions) (pageRender : Image) (nowIso pageUrl : String) :
    WireResponse :=
  if !connected then
    .failure id ⟨PAGE_NOT_READY, "No page connected. Use connect first.",
      ⟨"browser", false, none, none⟩⟩
  else
    match takeDiff parseDate st opts pageRender nowIso pageUrl with
    | .ok _ => .success id "diff result"
    | .error t => .failure id ⟨INTERNAL_ERROR,
        "Diff failed: " ++ thrownMessageForCatch t, ⟨"internal", false, none, none⟩⟩

/-! ### Transport message handling (DaemonServer.handleMessage) -/

/-- The fields of a parsed request that the transport layer reads. -/
structure Request where
  id : String
  method : String
  protocolVersion : String
  paramSubscriberId : Option String
deriving DecidableEq

/-- Connection-and-server state the transport layer mutates. -/
structure ConnState where
  subscribers : List String
  nextSubscriberId : Nat
deriving DecidableEq

/-- Environment of the transport layer: JSON.parse outcome, the protocol
compatibility predicate (isCompatible lives outside src), the daemon
version, and the outcome of generic method dispatch (which runs against
the browser and filesystem). -/
structure ServerCtx where
  parseJson : String → Option Request
  compatible : String → String → Bool
  daemonProtocolVersion : String
  dispatchResult : Request → WireResponse

/-- The Failure sent for a line that fails JSON.parse. -/
def invalidJsonError : CanvasError :=
  ⟨INPUT_INVALID, "Invalid JSON in request", ⟨"input", false, none, none⟩⟩

/-- DaemonServer.handleMessage on one complete line: parse, version
check, watch interception, then generic dispatch. Exactly one response
per line; the connection state is only touched by the watch methods. -/
def handleMessage (ctx : ServerCtx) (st : ConnState) (line : String) :
    ConnState × List WireResponse :=
  match ctx.parseJson line with
  | none => (st, [.failure "req_unknown" invalidJsonError])
  | some req =>
    if !ctx.compatible req.protocolVersion ctx.daemonProtocolVersion then
      (st, [.failure req.id ⟨PROTOCOL_VERSION_MISMATCH,
        "Protocol version mismatch: client " ++ req.protocolVersion ++
          ", daemon " ++ ctx.daemonProtocolVersion,
        ⟨"daemon", false, none,
          some ("Upgrade your CLI to match daemon protocol version " ++
            ctx.daemonProtocolVersion)⟩⟩])
    else if req.method = "watch.subscribe" then
      let subId := "sub_" ++ toString st.nextSubscriberId
      ({ subscribers := st.subscribers ++ [subId],
         nextSubscriberId := st.nextSubscriberId + 1 },
       [.success req.id ("subscriberId " ++ subId)])
    else if req.method = "watch.unsubscribe" then
      match req.paramSubscriberId with
      | none => (st, [.failure req.id ⟨INPUT_MISSING,
          "Missing required parameter: subscriberId",
          ⟨"input", false, some "subscriberId", none⟩⟩])
      | some subId =>
        ({ st with subscribers := st.subscribers.filter (fun s => !decide (s = subId)) },
         [.success req.id "unsubscribed"])
    else (st, [ctx.dispatchResult req])

/-- The per-connection loop of DaemonServer.handleConnection over the
already-framed lines: blank lines are skipped, every other line goes
through handleMessage; nothing here ever closes the connection. -/
def processLines (ctx : ServerCtx) (st : ConnState) : List String → ConnState × List WireResponse
  | [] => (st, [])
  | line :: rest =>
    if strTrim line = "" then processLines ctx st rest
    else
      let step := handleMessage ctx st line
      let tail := processLines ctx step.1 rest
      (tail.1, step.2 ++ tail.2)

/-! ### Connect retry loop (DaemonServer.handleConnect) -/

structure ConnectParams where
  url : String
  browser : Option String
  retries : Nat
  backoffMs : Nat
deriving DecidableEq

/-- The literal-substring test the source applies to a failed attempt:
message.includes("timeout") || message.includes("Timeout"). -/
def tmatches (m : String) : Bool :=
  strContainsSub m "timeout" || strContainsSub m "Timeout"

def navigationTimeoutError (url : String) : CanvasError :=
  createTimeoutError NAVIGATION_TIMEOUT ("Navigation timeout: " ++ url)
    (some "Check if the URL is accessible and try again")

def navigationFailedError (m : String) : CanvasError :=
  ⟨NAVIGATION_FAILED, "Failed to connect: " ++ m,
    ⟨"navigation", true, none,
      if strContainsSub m "playwright install" then some "Run: npx playwright install"
      else none⟩⟩

/-- The body of the for-loop of handleConnect, from a given attempt index
with the remaining loop iterations as fuel. attemptOutcome models what
browserManager.connect does on each attempt (success, or a thrown message). -/
def connectFrom (attemptOutcome : Nat → Except String Unit) (p : ConnectParams)
    (id : String) : Nat → Nat → WireResponse
  | _, 0 => .failure id ⟨NAVIGATION_FAILED, "Failed to connect after retries",
      ⟨"navigation", true, none, none⟩⟩
  | attempt, fuel + 1 =>
    match attemptOutcome attempt with
    | .ok _ => .success id "connected"
    | .error m =>
      if attempt < p.retries ∧ tmatches m then
        connectFrom attemptOutcome p id (attempt + 1) fuel
      else if tmatches m then .failure id (navigationTimeoutError p.url)
      else .failure id (navigationFailedError m)

/-- DaemonServer.handleConnect: parameter validation, then up to
retries + 1 attempts. -/
def handleConnect (attemptOutcome : Nat → Except String Unit) (p : ConnectParams)
    (id : String) : WireResponse :=
  if p.url = "" then
    .failure id ⟨INPUT_MISSING, "Missing required parameter: url",
      ⟨"input", false, some "url", none⟩⟩
  else if (match p.browser with
           | some b => !(decide (b = "chromium") || decide (b = "firefox") ||
               decide (b = "webkit"))
           | none => false) then
    .failure id ⟨INPUT_ENUM_INVALID, "Invalid --browser. Must be chromium, firefox, or webkit.",
      ⟨"input", false, some "browser", none⟩⟩
  else connectFrom attemptOutcome p id 0 (p.retries + 1)

/-! ### Selector candidates (BrowserManager.getSelectorCandidates) -/

/-- COMMON_SELECTORS from the source. -/
def COMMON_SELECTORS : List String :=
  ["body", "main", "header", "footer", "nav", "section", "article", "aside",
   "h1", "h2", "h3", "button", "a", "input", "form",
   "[role=\"main\"]", "[role=\"navigation\"]", "[role=\"banner\"]",
   "[role=\"contentinfo\"]"]

/-- The live page as the candidate search sees it: whether a page is open,
what each locator count probe does (it can throw), and what the injected
class/id similarity evaluation does (it can throw too). -/
structure PageEnv where
  pageOpen : Bool
  locatorCount : String → Except Unit Nat
  evalSimilar : String → Except Unit (List String)

/-- First-occurrence deduplication: the spread of a JS Set. -/
def dedupFirst : List String → List String
  | [] => []
  | x :: rest => x :: (dedupFirst (rest.filter (fun y => !decide (y = x))))
termination_by l => l.length
decreasing_by
  simp only [List.length_cons]
  exact Nat.lt_succ_of_le (List.length_filter_le _ _)

/-- BrowserManager.getSelectorCandidates: probe the common selectors
(each probe failure is skipped), then for class/id selectors run the
in-page similarity evaluation, whose failure is NOT caught and therefore
propagates; finally dedupe and cap at 5. -/
def getSelectorCandidates (env : PageEnv) (failedSelector : String) :
    Except Unit (List String) :=
  if !env.pageOpen then .ok []
  else
    let candidates := COMMON_SELECTORS.foldl (fun acc sel =>
      if decide (sel = failedSelector) then acc
      else match env.locatorCount sel with
        | .ok n => if n > 0 then acc ++ [sel] else acc
        | .error _ => acc) []
    if (match failedSelector.data with
        | c :: _ => decide (c = '.') || decide (c = '#')
        | [] => false) then
      match env.evalSimilar failedSelector with
      | .error e => .error e
      | .ok similar => .ok ((dedupFirst (candidates ++ similar)).take 5)
    else .ok ((dedupFirst candidates).take 5)

/-! ### UI-readiness timers (DaemonServer.resetUiReadyTimers) -/

/-- The two pending setTimeout deadlines, as absolute times. -/
structure UiTimers where
  uiReadyTimer : Option Nat
  uiReadyMaxTimer : Option Nat
deriving DecidableEq

/-- DaemonServer.clearUiReadyTimers: firing either timer cancels both. -/
def clearUiReadyTimers : UiTimers := ⟨none, none⟩

/-- DaemonServer.resetUiReadyTimers at absolute time now: the quiet
window timer is always re-armed; the max-wait timer is armed only when
not already pending. -/
def resetUiReadyTimers (quietMs maxMs now : Nat) (ts : UiTimers) : UiTimers :=
  { uiReadyTimer := some (now + quietMs)
    uiReadyMaxTimer :=
      match ts.uiReadyMaxTimer with
      | some d => some d
      | none => some (now + maxMs) }

/-- The earliest pending deadline. -/
def nextDeadline (ts : UiTimers) : Option Nat :=
  match ts.uiReadyTimer, ts.uiReadyMaxTimer with
  | some q, some m => some (min q m)
  | some q, none => some q
  | none, some m => some m
  | none, none => none

/-- Timed run of the state machine over an ascending list of signal
times: a pending deadline at or before the next signal fires first
(emitting ui_ready and clearing both timers), every signal goes through
resetUiReadyTimers, and a trailing deadline fires at the end. Returns the
ascending list of ui_ready emission times. -/
def runSignals (quietMs maxMs : Nat) : UiTimers → List Nat → List Nat
  | ts, [] =>
    (match nextDeadline ts with
     | none => []
     | some d => [d])
  | ts, s :: rest =>
    match nextDeadline ts with
    | none => runSignals quietMs maxMs (resetUiReadyTimers quietMs maxMs s clearUiReadyTimers) rest
    | some d =>
      if d ≤ s then
        d :: runSignals quietMs maxMs (resetUiReadyTimers quietMs maxMs s clearUiReadyTimers) rest
      else
        runSignals quietMs maxMs (resetUiReadyTimers quietMs maxMs s ts) rest

/-- Successive signals are ascending with gaps strictly below q. -/
def gapsOk (q : Nat) : List Nat → Bool
  | [] => true
  | [_] => true
  | a :: b :: rest => decide (a < b) && decide (b < a + q) && gapsOk q (b :: rest)

/-! ### Concrete fixtures used by the witnesses -/

def c4Request : Request := ⟨"req_1", "ping", "1.0.0", none⟩

def c4Ctx : ServerCtx :=
  { parseJson := fun s => if s = "good line" then some c4Request else none
    compatible := fun a b => decide (a = b)
    daemonProtocolVersion := "1.0.0"
    dispatchResult := fun req => .success req.id "pong" }

def c6Attempt : Nat → Except String Unit := fun n => if n = 0 then .error "TIMEOUT" else .ok ()

def c6Params : ConnectParams := ⟨"http://localhost:3000", none, 1, 250⟩

def c6WitAttempt : Nat → Except String Unit := fun _ => .error "Timeout 5000ms exceeded"

def c6WitParams : ConnectParams := ⟨"http://localhost:3000", none, 0, 250⟩

def c9EnvBad : PageEnv := ⟨true, fun _ => .ok 0, fun _ => .error ()⟩

def c9EnvGood : PageEnv :=
  ⟨true, fun s => if s = "button" then .ok 1 else .ok 0, fun _ => .ok []⟩

def c5ParseDate : String → Option Int := fun _ => none

def c5Opts : DiffOptions := ⟨"/w", none, some "not-a-date", none⟩

def c5Img : Image := ⟨1, 1, [⟨0, 0, 0, 255⟩]⟩

def c5Fs : FsState := ⟨[], .absent, [], []⟩

def c7Black : Image := ⟨1, 1, [⟨0, 0, 0, 255⟩]⟩

def c7White : Image := ⟨1, 1, [⟨255, 255, 255, 255⟩]⟩

/-- The min-tracking component of the bounding scan. -/
def foldlMinCond (P : Nat × Nat → Prop) [DecidablePred P] (f : Nat × Nat → Int)
    (L : List (Nat × Nat)) (m0 : Int) : Int :=
  L.foldl (fun m c => if P c ∧ f c < m then f c else m) m0

/-- The max-tracking component of the bounding scan. -/
def foldlMaxCond (P : Nat × Nat → Prop) [DecidablePred P] (f : Nat × Nat → Int)
    (L : List (Nat × Nat)) (m0 : Int) : Int :=
  L.foldl (fun m c => if P c ∧ f c > m then f c else m) m0

def c8DiffImage : Image :=
  ⟨2, 2, [⟨0, 0, 0, 0⟩, ⟨255, 0, 0, 255⟩, ⟨0, 0, 0, 0⟩, ⟨0, 0, 0, 0⟩]⟩

def c8EmptyImage : Image := ⟨2, 2, [⟨0, 0, 0, 0⟩, ⟨0, 0, 0, 0⟩, ⟨0, 0, 0, 0⟩, ⟨0, 0, 0, 0⟩]⟩

def diffWitPd : String → Option Int := fun _ => none

def diffWitFs : FsState := ⟨[], .absent, [], []⟩

def diffWitImg : Image := ⟨1, 1, [⟨10, 20, 30, 255⟩]⟩

def diffWitOpts : DiffOptions := ⟨"/w", none, none, none⟩

def diffWitRes : DiffResult :=
  ⟨baselineDefaultPath "/w", shotPath "/w" "T1.png", "", 0, fracZero, [], true,
   defaultThreshold, "No baseline existed; baseline initialized."⟩

def diffWitSt : FsState :=
  ⟨[("baseline.png", diffWitImg), ("T1.png", diffWitImg)],
   .parsed (baselineDefaultPath "/w") "T1",
   [⟨"T1", baselineDefaultPath "/w", shotPath "/w" "T1.png", "", 0, fracZero, [],
     defaultThreshold, true, some "u", none⟩],
   []⟩

/-! ### Theorems: transport (C4) -/

/-- Claim C4: for every input line on a connection that is not valid
JSON, the daemon sends exactly one Failure response carrying the sentinel
id req_unknown and a 5xxx-range input-invalid error code, the connection
state is untouched, and subsequent well-formed requests on the same
connection are processed exactly as they would have been. -/
theorem c4_invalid_json_single_failure (ctx : ServerCtx) (st : ConnState) (line : String)
    (rest : List String) (hparse : ctx.parseJson line = none)
    (hline : ¬ strTrim line = "") :
    handleMessage ctx st line = (st, [.failure "req_unknown" invalidJsonError]) ∧
    processLines ctx st (line :: rest) =
      ((processLines ctx st rest).1,
        WireResponse.failure "req_unknown" invalidJsonError ::
          (processLines ctx st rest).2) ∧
    5000 ≤ invalidJsonError.code ∧ invalidJsonError.code < 6000 := by
  have hm : handleMessage ctx st line = (st, [.failure "req_unknown" invalidJsonError]) := by
    simp [handleMessage, hparse]
  refine ⟨hm, ?_, by decide, by decide⟩
  simp [processLines, hline, hm]

/-- Witness for C4 at a concrete malformed line followed by a well-formed
request on the same connection. -/
theorem c4_invalid_json_single_failure_witness :
    c4Ctx.parseJson "not json" = none ∧ ¬ strTrim "not json" = "" ∧
    (handleMessage c4Ctx ⟨[], 0⟩ "not json" =
      (⟨[], 0⟩, [.failure "req_unknown" invalidJsonError]) ∧
     processLines c4Ctx ⟨[], 0⟩ ("not json" :: ["good line"]) =
       ((processLines c4Ctx ⟨[], 0⟩ ["good line"]).1,
         WireResponse.failure "req_unknown" invalidJsonError ::
           (processLines c4Ctx ⟨[], 0⟩ ["good line"]).2) ∧
     5000 ≤ invalidJsonError.code ∧ invalidJsonError.code < 6000) :=
  ⟨by decide, by decide,
    c4_invalid_json_single_failure c4Ctx ⟨[], 0⟩ "not json" ["good line"]
      (by decide) (by decide)⟩

/-! ### Theorems: UI-readiness dual-timer machine (C3) -/

/-- In an ascending burst, every later signal is above the first. -/
lemma gapsOk_later_gt (q : Nat) :
    ∀ (l : List Nat) (a : Nat), gapsOk q (a :: l) = true → ∀ x ∈ l, a < x := by
  intro l
  induction l with
  | nil => intro a _ x hx; cases hx
  | cons b rest ih =>
    intro a h x hx
    simp only [gapsOk, Bool.and_eq_true, decide_eq_true_eq] at h
    obtain ⟨⟨hab, _⟩, htail⟩ := h
    rcases List.mem_cons.mp hx with hx | hx
    · subst hx; omega
    · exact lt_trans hab (ih b htail x hx)

/-- Equation of runSignals on the empty list with a pending deadline. -/
lemma runSignals_nil_deadline {q m : Nat} {ts : UiTimers} {d : Nat}
    (hnd : nextDeadline ts = some d) : runSignals q m ts [] = [d] := by
  rw [runSignals, hnd]

/-- Equation of runSignals on a signal with no pending deadline. -/
lemma runSignals_cons_none {q m : Nat} {ts : UiTimers} (s : Nat) (rest : List Nat)
    (hnd : nextDeadline ts = none) :
    runSignals q m ts (s :: rest) =
      runSignals q m (resetUiReadyTimers q m s clearUiReadyTimers) rest := by
  rw [runSignals, hnd]

/-- Equation of runSignals on a signal with a pending deadline. -/
lemma runSignals_cons_deadline {q m : Nat} {ts : UiTimers} {d : Nat} (s : Nat)
    (rest : List Nat) (hnd : nextDeadline ts = some d) :
    runSignals q m ts (s :: rest) =
      if d ≤ s then
        d :: runSignals q m (resetUiReadyTimers q m s clearUiReadyTimers) rest
      else runSignals q m (resetUiReadyTimers q m s ts) rest := by
  rw [runSignals, hnd]

/-- Every emission of a run whose pending deadlines and future signals
all lie strictly above a bound stays strictly above that bound. -/
lemma runSignals_all_gt (q m : Nat) :
    ∀ (sigs : List Nat) (ts : UiTimers) (B : Nat),
      (∀ d, ts.uiReadyTimer = some d → B < d) →
      (∀ d, ts.uiReadyMaxTimer = some d → B < d) →
      (∀ s ∈ sigs, B < s) →
      ∀ e ∈ runSignals q m ts sigs, B < e := by
  intro sigs
  induction sigs with
  | nil =>
    intro ts B hqd hmd _ e he
    obtain ⟨tq, tm⟩ := ts
    cases tq <;> cases tm <;>
      simp_all [runSignals, nextDeadline] <;> omega
  | cons s rest ih =>
    intro ts B hqd hmd hsig e he
    have hs : B < s := hsig s (by simp)
    have hrest : ∀ x ∈ rest, B < x := fun x hx => hsig x (by simp [hx])
    have hnext : ∀ d, nextDeadline ts = some d → B < d := by
      intro d hd
      obtain ⟨tq, tm⟩ := ts
      cases htq : tq <;> cases htm : tm <;>
        simp_all [nextDeadline] <;> omega
    have hreset : ∀ (base : UiTimers),
        (∀ d, base.uiReadyMaxTimer = some d → B < d) →
        (∀ d, (resetUiReadyTimers q m s base).uiReadyTimer = some d → B < d) ∧
        (∀ d, (resetUiReadyTimers q m s base).uiReadyMaxTimer = some d → B < d) := by
      intro base hbase
      constructor
      · intro d hd
        simp only [resetUiReadyTimers, Option.some.injEq] at hd
        omega
      · intro d hd
        simp only [resetUiReadyTimers] at hd
        cases hb : base.uiReadyMaxTimer with
        | none => rw [hb] at hd; simp at hd; omega
        | some d0 => rw [hb] at hd; simp at hd; subst hd; exact hbase d0 hb
    cases hnd : nextDeadline ts with
    | none =>
      rw [runSignals_cons_none s rest hnd] at he
      have hcl := hreset clearUiReadyTimers (by intro d hd; cases hd)
      exact ih _ B hcl.1 hcl.2 hrest e he
    | some d =>
      rw [runSignals_cons_deadline s rest hnd] at he
      by_cases hds : d ≤ s
      · rw [if_pos hds] at he
        rcases List.mem_cons.mp he with he | he
        · rw [he]; exact hnext d hnd
        · have hcl := hreset clearUiReadyTimers (by intro x hx; cases hx)
          exact ih _ B hcl.1 hcl.2 hrest e he
      · rw [if_neg hds] at he
        have hts := hreset ts hmd
        exact ih _ B hts.1 hts.2 hrest e he

/-- Inside a burst (quiet timer pending from the previous signal, max
timer pending at M, gaps below the quiet window), the run emits exactly
one ui_ready at or before M, and everything after it strictly after M. -/
lemma runSignals_burst (q m : Nat) (hqpos : 0 < q) (hmpos : 0 < m) :
    ∀ (rest : List Nat) (prev M : Nat),
      gapsOk q (prev :: rest) = true →
      ∃ e tail, runSignals q m ⟨some (prev + q), some M⟩ rest = e :: tail ∧
        e ≤ M ∧ ∀ x ∈ tail, M < x := by
  intro rest
  induction rest with
  | nil =>
    intro prev M _
    exact ⟨min (prev + q) M, [],
      @runSignals_nil_deadline q m ⟨some (prev + q), some M⟩ (min (prev + q) M) rfl,
      min_le_right _ _, by simp⟩
  | cons s rest2 ih =>
    intro prev M hgaps
    simp only [gapsOk, Bool.and_eq_true, decide_eq_true_eq] at hgaps
    obtain ⟨⟨hps, hsq⟩, htail⟩ := hgaps
    have hnd : nextDeadline ⟨some (prev + q), some M⟩ = some (min (prev + q) M) := rfl
    by_cases hMs : M ≤ s
    · -- the max-wait deadline elapses before (or at) the next signal
      have hmin : min (prev + q) M = M := min_eq_right (by omega)
      have hfire : min (prev + q) M ≤ s := by omega
      refine ⟨M, runSignals q m (resetUiReadyTimers q m s clearUiReadyTimers) rest2,
        ?_, le_refl M, ?_⟩
      · rw [runSignals_cons_deadline s rest2 hnd, if_pos hfire, hmin]
      · intro x hx
        have hclear : resetUiReadyTimers q m s clearUiReadyTimers =
            ⟨some (s + q), some (s + m)⟩ := rfl
        have := runSignals_all_gt q m rest2
          (resetUiReadyTimers q m s clearUiReadyTimers) M
          (by rw [hclear]; intro d hd; simp at hd; omega)
          (by rw [hclear]; intro d hd; simp at hd; omega)
          (by intro y hy; exact lt_of_le_of_lt hMs (gapsOk_later_gt q rest2 s htail y hy))
          x hx
        exact this
    · -- no deadline elapses before the next signal: quiet window re-arms
      have hnofire : ¬ min (prev + q) M ≤ s := by omega
      have hstep : resetUiReadyTimers q m s ⟨some (prev + q), some M⟩ =
          ⟨some (s + q), some M⟩ := rfl
      obtain ⟨e, tail, heq, heM, htl⟩ := ih s M htail
      refine ⟨e, tail, ?_, heM, htl⟩
      rw [runSignals_cons_deadline s rest2 hnd, if_neg hnofire, hstep, heq]

/-- Claim C3: the quiet-window timer is re-armed on every signal while
the max-wait timer is armed once per burst and never reset; and under a
continuous stream of signals spaced closer than the quiet window, the run
emits exactly one ui_ready event no later than the max-wait duration
after the first signal. -/
theorem c3_dual_timer_fairness (q m : Nat) (hqpos : 0 < q) (hmpos : 0 < m)
    (s : Nat) (rest : List Nat) (hgaps : gapsOk q (s :: rest) = true) :
    (∀ now ts, (resetUiReadyTimers q m now ts).uiReadyTimer = some (now + q)) ∧
    (∀ now ts d, ts.uiReadyMaxTimer = some d →
        (resetUiReadyTimers q m now ts).uiReadyMaxTimer = some d) ∧
    (runSignals q m clearUiReadyTimers (s :: rest)).countP
        (fun e => decide (e ≤ s + m)) = 1 := by
  refine ⟨fun now ts => rfl, fun now ts d hd => by simp [resetUiReadyTimers, hd], ?_⟩
  have hfirst : runSignals q m clearUiReadyTimers (s :: rest) =
      runSignals q m ⟨some (s + q), some (s + m)⟩ rest :=
    runSignals_cons_none s rest rfl
  obtain ⟨e, tail, heq, heM, htl⟩ := runSignals_burst q m hqpos hmpos rest s (s + m) hgaps
  have h0 : tail.countP (fun e => decide (e ≤ s + m)) = 0 := by
    rw [List.countP_eq_zero]
    intro x hx
    simp only [decide_eq_true_eq]
    exact not_le.mpr (htl x hx)
  rw [hfirst, heq, List.countP_cons, h0]
  simp [heM]

/-- Witness for C3: quiet window 3, max wait 10, signals at 0,2,4,...,14
(gaps 2 < 3); the run emits at 10 = 0 + 10 and once more later. -/
theorem c3_dual_timer_fairness_witness :
    0 < 3 ∧ 0 < 10 ∧ gapsOk 3 [0, 2, 4, 6, 8, 10, 12, 14] = true ∧
    ((∀ now ts, (resetUiReadyTimers 3 10 now ts).uiReadyTimer = some (now + 3)) ∧
     (∀ now ts d, ts.uiReadyMaxTimer = some d →
         (resetUiReadyTimers 3 10 now ts).uiReadyMaxTimer = some d) ∧
     (runSignals 3 10 clearUiReadyTimers (0 :: [2, 4, 6, 8, 10, 12, 14])).countP
         (fun e => decide (e ≤ 0 + 10)) = 1) :=
  ⟨by decide, by decide, by decide,
    c3_dual_timer_fairness 3 10 (by decide) (by decide) 0 [2, 4, 6, 8, 10, 12, 14]
      (by decide)⟩

/-! ### Theorems: connect failure classification (C6) -/

/-- Counterexample to claim C6: the message "TIMEOUT" contains "timeout"
case-insensitively, yet the connect handler classifies it as the generic
navigation failure 2005 on the very first attempt (no retry is taken even
though a retry would have succeeded), not as the 2004 navigation timeout. -/
theorem c6_uppercase_timeout_counterexample :
    containsInsensitive "TIMEOUT" "timeout" = true ∧
    c6Attempt 0 = .error "TIMEOUT" ∧ c6Attempt 1 = .ok () ∧
    handleConnect c6Attempt c6Params "req_c6" =
      .failure "req_c6" (navigationFailedError "TIMEOUT") ∧
    (navigationFailedError "TIMEOUT").code = NAVIGATION_FAILED ∧
    NAVIGATION_FAILED ≠ NAVIGATION_TIMEOUT := by
  decide

/-- Claim C6 (amended): a failed connect attempt whose message contains
the exact substring "timeout" or "Timeout" (only those two casings, not
arbitrary case-insensitive casings) is timeout-class: it is retried while
attempts remain and otherwise yields the retryable 2004 navigation-timeout
error; any other message immediately yields the generic 2005
navigation-failed error. -/
theorem c6_timeout_classification (attemptOutcome : Nat → Except String Unit)
    (p : ConnectParams) (id : String) (attempt fuel : Nat) (m : String)
    (hatt : attemptOutcome attempt = .error m) :
    (tmatches m = true →
      (attempt < p.retries →
        connectFrom attemptOutcome p id attempt (fuel + 1) =
          connectFrom attemptOutcome p id (attempt + 1) fuel) ∧
      (¬ attempt < p.retries →
        connectFrom attemptOutcome p id attempt (fuel + 1) =
          .failure id (navigationTimeoutError p.url))) ∧
    (tmatches m = false →
      connectFrom attemptOutcome p id attempt (fuel + 1) =
        .failure id (navigationFailedError m)) ∧
    (navigationTimeoutError p.url).code = NAVIGATION_TIMEOUT ∧
    (navigationTimeoutError p.url).data.retryable = true ∧
    (navigationFailedError m).code = NAVIGATION_FAILED := by
  refine ⟨?_, ?_, rfl, rfl, rfl⟩
  · intro ht
    constructor
    · intro hlt
      rw [connectFrom, hatt]
      simp [hlt, ht]
    · intro hnlt
      rw [connectFrom, hatt]
      simp [hnlt, ht]
  · intro hf
    rw [connectFrom, hatt]
    simp [hf]

/-- Witness for the amended C6 at a concrete timeout-class message with no
retries left. -/
theorem c6_timeout_classification_witness :
    c6WitAttempt 0 = .error "Timeout 5000ms exceeded" ∧
    ((tmatches "Timeout 5000ms exceeded" = true →
      (0 < c6WitParams.retries →
        connectFrom c6WitAttempt c6WitParams "req_w6" 0 (0 + 1) =
          connectFrom c6WitAttempt c6WitParams "req_w6" (0 + 1) 0) ∧
      (¬ 0 < c6WitParams.retries →
        connectFrom c6WitAttempt c6WitParams "req_w6" 0 (0 + 1) =
          .failure "req_w6" (navigationTimeoutError c6WitParams.url))) ∧
     (tmatches "Timeout 5000ms exceeded" = false →
      connectFrom c6WitAttempt c6WitParams "req_w6" 0 (0 + 1) =
        .failure "req_w6" (navigationFailedError "Timeout 5000ms exceeded")) ∧
     (navigationTimeoutError c6WitParams.url).code = NAVIGATION_TIMEOUT ∧
     (navigationTimeoutError c6WitParams.url).data.retryable = true ∧
     (navigationFailedError "Timeout 5000ms exceeded").code = NAVIGATION_FAILED) :=
  ⟨by decide,
    c6_timeout_classification c6WitAttempt c6WitParams "req_w6" 0 0
      "Timeout 5000ms exceeded" (by decide)⟩

/-! ### Theorems: selector candidates (C9) -/

/-- Counterexample to claim C9: when the in-page class/id similarity
evaluation fails, getSelectorCandidates propagates the failure instead of
degrading to an empty list — it does throw. -/
theorem c9_eval_failure_counterexample :
    getSelectorCandidates c9EnvBad ".totally-bogus-xyz" = .error () := by
  decide

/-- Claim C9 (amended): getSelectorCandidates never returns more than 5
candidates, and it cannot throw unless the failed selector starts with a
dot or hash AND the in-page similarity evaluation itself fails; individual
common-selector probe failures are skipped, and a closed page yields an
empty list. -/
theorem c9_candidates_bounded (env : PageEnv) (sel : String)
    (h : (match sel.data with
          | c :: _ => decide (c = '.') || decide (c = '#')
          | [] => false) = false ∨ ∃ l, env.evalSimilar sel = .ok l) :
    ∃ r, getSelectorCandidates env sel = .ok r ∧ r.length ≤ 5 := by
  simp only [getSelectorCandidates]
  by_cases hopen : env.pageOpen
  · rw [hopen]
    simp only [Bool.not_true, Bool.false_eq_true, if_false]
    by_cases hdm : (match sel.data with
        | c :: _ => decide (c = '.') || decide (c = '#')
        | [] => false) = true
    · rw [if_pos hdm]
      rcases h with hnp | ⟨l, hl⟩
      · rw [hnp] at hdm; cases hdm
      · rw [hl]
        exact ⟨_, rfl, by rw [List.length_take]; exact min_le_left _ _⟩
    · rw [if_neg hdm]
      exact ⟨_, rfl, by rw [List.length_take]; exact min_le_left _ _⟩
  · have hfalse : env.pageOpen = false := by simpa using hopen
    rw [hfalse]
    exact ⟨[], rfl, by simp⟩

/-- Witness for the amended C9: a live page containing a button, probed
for a selector that does not start with a dot or hash. -/
theorem c9_candidates_bounded_witness :
    ((match "totally-bogus".data with
      | c :: _ => decide (c = '.') || decide (c = '#')
      | [] => false) = false ∨ ∃ l, c9EnvGood.evalSimilar "totally-bogus" = .ok l) ∧
    ∃ r, getSelectorCandidates c9EnvGood "totally-bogus" = .ok r ∧ r.length ≤ 5 :=
  ⟨Or.inl (by decide),
    c9_candidates_bounded c9EnvGood "totally-bogus" (Or.inl (by decide))⟩

/-! ### Theorems: invalid since timestamp (C5) -/

/-- Claim C5 evaluated on the code: takeDiff does throw the 5003 input
error for an unparseable explicit since timestamp, but the diff handler
catches every thrown value and answers the client with the 9001 internal
error (whose message stringifies the thrown plain object to
"[object Object]"), so the response delivered to the client is not in the
5xxx input-validation range. -/
theorem c5_invalid_since_reaches_client_as_internal :
    takeDiff c5ParseDate c5Fs c5Opts c5Img "T2" "http://u" =
      .error (.canvasErr (createInputError INPUT_TIMESTAMP_INVALID
        "Invalid --since timestamp: not-a-date" "since"
        (some "Use ISO 8601 format (e.g. 2026-01-14T10:00:00Z) or \"last\"."))) ∧
    INPUT_TIMESTAMP_INVALID = 5003 ∧
    handleDiff c5ParseDate true c5Fs "req_c5" c5Opts c5Img "T2" "http://u" =
      .failure "req_c5" ⟨INTERNAL_ERROR, "Diff failed: [object Object]",
        ⟨"internal", false, none, none⟩⟩ ∧
    ¬ (5000 ≤ INTERNAL_ERROR ∧ INTERNAL_ERROR < 6000) := by
  decide

/-! ### Pixel-comparison lemmas and threshold monotonicity (C7) -/

lemma colorDeltaNum_self (p : Pixel) : colorDeltaNum p p = 0 := by
  simp [colorDeltaNum]

lemma pixelMismatchB_self (t : Frac) (p : Pixel) : pixelMismatchB t p p = false := by
  rw [pixelMismatchB, colorDeltaNum_self]
  have hrhs : (0 : Int) ≤ 35215 * (t.num * t.num) * deltaScale :=
    mul_nonneg (mul_nonneg (by norm_num) (mul_self_nonneg t.num)) (by norm_num [deltaScale])
  exact decide_eq_false (not_lt.mpr (by simpa using hrhs))

lemma mem_zip_self {α : Type} : ∀ (xs : List α) (pq : α × α), pq ∈ xs.zip xs → pq.1 = pq.2 := by
  intro xs
  induction xs with
  | nil => intro pq h; cases h
  | cons x rest ih =>
    intro pq h
    rcases List.mem_cons.mp h with h | h
    · rw [h]
    · exact ih pq h

/-- Comparing a pixel stream against itself yields no mismatches at any
threshold (equal pixels have zero perceptual distance, and the bound
35215 * t^2 is never negative). -/
lemma pixelmatchCount_self (xs : List Pixel) (t : Frac) : pixelmatchCount xs xs t = 0 := by
  rw [pixelmatchCount, List.countP_eq_zero]
  intro pq hpq
  have heq : pq.1 = pq.2 := mem_zip_self xs pq hpq
  rw [heq]
  simp [pixelMismatchB_self]

/-- Claim C7: for a fixed pair of identically sized images and thresholds
within [0,1], raising the per-pixel threshold never increases the
mismatched pixel count reported by the diff computation; in particular
the count at threshold 0.9 is at most the count at threshold 0.1. -/
theorem c7_threshold_monotone (baseline current : Image) (t1 t2 : Frac)
    (hd1 : 0 < t1.den) (hd2 : 0 < t2.den) (h0 : 0 ≤ t1.num)
    (h12 : t1.num * t2.den ≤ t2.num * t1.den) (hub : t2.num ≤ t2.den)
    (c1 c2 : DiffComputation)
    (hr1 : computeDiff baseline current t1 = .ok c1)
    (hr2 : computeDiff baseline current t2 = .ok c2) :
    c2.mismatchedPixels ≤ c1.mismatchedPixels := by
  rw [computeDiff] at hr1 hr2
  by_cases hdim : baseline.width ≠ current.width ∨ baseline.height ≠ current.height
  · rw [if_pos hdim] at hr1; cases hr1
  · rw [if_neg hdim] at hr1 hr2
    injection hr1 with hr1
    injection hr2 with hr2
    rw [← hr1, ← hr2]
    simp only [pixelmatchCount]
    apply List.countP_mono_left
    intro pq _ hp
    simp only [pixelMismatchB, decide_eq_true_eq] at hp ⊢
    have hS : (0 : Int) < deltaScale := by norm_num [deltaScale]
    have hsq : (t1.num * t2.den) * (t1.num * t2.den) ≤
        (t2.num * t1.den) * (t2.num * t1.den) :=
      mul_self_le_mul_self (mul_nonneg h0 (le_of_lt hd2)) h12
    nlinarith [mul_lt_mul_of_pos_right hp (mul_pos hd1 hd1),
      mul_le_mul_of_nonneg_right hsq (le_of_lt hS),
      mul_pos (mul_pos hd2 hd2) hS, mul_pos hd2 hd2]

/-- Witness for C7 on a concrete 1x1 black/white pair at thresholds 0.1
and 0.9. -/
theorem c7_threshold_monotone_witness :
    (0 : Int) < (defaultThreshold).den ∧ (0 : Int) < (Frac.mk 9 10).den ∧
    (0 : Int) ≤ (defaultThreshold).num ∧
    (defaultThreshold).num * (Frac.mk 9 10).den ≤
      (Frac.mk 9 10).num * (defaultThreshold).den ∧
    (Frac.mk 9 10).num ≤ (Frac.mk 9 10).den ∧
    computeDiff c7Black c7White defaultThreshold =
      .ok ⟨1, ⟨1, 1⟩, [⟨0, 0, 1, 1⟩], ⟨1, 1, [⟨255, 0, 0, 255⟩]⟩⟩ ∧
    computeDiff c7Black c7White ⟨9, 10⟩ =
      .ok ⟨1, ⟨1, 1⟩, [⟨0, 0, 1, 1⟩], ⟨1, 1, [⟨255, 0, 0, 255⟩]⟩⟩ ∧
    (1 : Nat) ≤ 1 := by
  refine ⟨by decide, by decide, by decide, by decide, by decide, by decide, by decide, ?_⟩
  exact c7_threshold_monotone c7Black c7White defaultThreshold ⟨9, 10⟩ (by decide)
    (by decide) (by decide) (by decide) (by decide)
    ⟨1, ⟨1, 1⟩, [⟨0, 0, 1, 1⟩], ⟨1, 1, [⟨255, 0, 0, 255⟩]⟩⟩
    ⟨1, ⟨1, 1⟩, [⟨0, 0, 1, 1⟩], ⟨1, 1, [⟨255, 0, 0, 255⟩]⟩⟩ (by decide) (by decide)

/-! ### Theorems: region extraction (C8) -/

lemma mem_allCoords (diff : Image) (c : Nat × Nat) :
    c ∈ allCoords diff ↔ c.1 < diff.width ∧ c.2 < diff.height := by
  obtain ⟨x, y⟩ := c
  simp only [allCoords, List.mem_flatMap, List.mem_map, List.mem_range]
  constructor
  · rintro ⟨yy, hyy, xx, hxx, heq⟩
    injection heq with h1 h2
    subst h1; subst h2
    exact ⟨hxx, hyy⟩
  · rintro ⟨hx, hy⟩
    exact ⟨y, hy, x, hx, rfl⟩

/-- The four components of the bounding scan are independent min/max folds. -/
lemma scanStep_foldl_decompose (diff : Image) :
    ∀ (L : List (Nat × Nat)) (a b mx my : Int),
      L.foldl (scanStep diff) (a, b, mx, my) =
        (foldlMinCond (fun c => 0 < (pixelAt diff c.1 c.2).a) (fun c => (c.1 : Int)) L a,
         foldlMinCond (fun c => 0 < (pixelAt diff c.1 c.2).a) (fun c => (c.2 : Int)) L b,
         foldlMaxCond (fun c => 0 < (pixelAt diff c.1 c.2).a) (fun c => (c.1 : Int)) L mx,
         foldlMaxCond (fun c => 0 < (pixelAt diff c.1 c.2).a) (fun c => (c.2 : Int)) L my) := by
  intro L
  induction L with
  | nil => intro a b mx my; rfl
  | cons xy L ih =>
    intro a b mx my
    have hstep : scanStep diff (a, b, mx, my) xy =
        ((if 0 < (pixelAt diff xy.1 xy.2).a ∧ (xy.1 : Int) < a then (xy.1 : Int) else a),
         (if 0 < (pixelAt diff xy.1 xy.2).a ∧ (xy.2 : Int) < b then (xy.2 : Int) else b),
         (if 0 < (pixelAt diff xy.1 xy.2).a ∧ (xy.1 : Int) > mx then (xy.1 : Int) else mx),
         (if 0 < (pixelAt diff xy.1 xy.2).a ∧ (xy.2 : Int) > my then (xy.2 : Int) else my)) := by
      by_cases hP : 0 < (pixelAt diff xy.1 xy.2).a
      · simp [scanStep, hP]
      · simp [scanStep, hP]
    rw [List.foldl_cons, hstep, ih]
    simp only [foldlMinCond, foldlMaxCond, List.foldl_cons]

lemma foldlMinCond_spec (P : Nat × Nat → Prop) [DecidablePred P] (f : Nat × Nat → Int) :
    ∀ (L : List (Nat × Nat)) (m0 : Int),
      foldlMinCond P f L m0 ≤ m0 ∧
      (∀ c ∈ L, P c → foldlMinCond P f L m0 ≤ f c) ∧
      (foldlMinCond P f L m0 = m0 ∨ ∃ c ∈ L, P c ∧ foldlMinCond P f L m0 = f c) := by
  intro L
  induction L with
  | nil => intro m0; exact ⟨le_refl _, by simp, Or.inl rfl⟩
  | cons x L ih =>
    intro m0
    by_cases hc : P x ∧ f x < m0
    · have hcons : foldlMinCond P f (x :: L) m0 = foldlMinCond P f L (f x) := by
        simp only [foldlMinCond, List.foldl_cons, if_pos hc]
      obtain ⟨hc1, hc2⟩ := hc
      obtain ⟨h1, h2, h3⟩ := ih (f x)
      rw [hcons]
      refine ⟨by omega, ?_, ?_⟩
      · intro cc hcc hPcc
        rcases List.mem_cons.mp hcc with rfl | hmem
        · exact h1
        · exact h2 cc hmem hPcc
      · rcases h3 with h3 | ⟨cc, hmem, hPc, heq⟩
        · exact Or.inr ⟨x, List.mem_cons_self x L, hc1, h3⟩
        · exact Or.inr ⟨cc, List.mem_cons_of_mem x hmem, hPc, heq⟩
    · have hcons : foldlMinCond P f (x :: L) m0 = foldlMinCond P f L m0 := by
        simp only [foldlMinCond, List.foldl_cons, if_neg hc]
      obtain ⟨h1, h2, h3⟩ := ih m0
      rw [hcons]
      refine ⟨h1, ?_, ?_⟩
      · intro cc hcc hPcc
        rcases List.mem_cons.mp hcc with rfl | hmem
        · have hnlt : ¬ f cc < m0 := fun hlt => hc ⟨hPcc, hlt⟩
          omega
        · exact h2 cc hmem hPcc
      · rcases h3 with h3 | ⟨cc, hmem, hPc, heq⟩
        · exact Or.inl h3
        · exact Or.inr ⟨cc, List.mem_cons_of_mem x hmem, hPc, heq⟩

lemma foldlMaxCond_spec (P : Nat × Nat → Prop) [DecidablePred P] (f : Nat × Nat → Int) :
    ∀ (L : List (Nat × Nat)) (m0 : Int),
      m0 ≤ foldlMaxCond P f L m0 ∧
      (∀ c ∈ L, P c → f c ≤ foldlMaxCond P f L m0) ∧
      (foldlMaxCond P f L m0 = m0 ∨ ∃ c ∈ L, P c ∧ foldlMaxCond P f L m0 = f c) := by
  intro L
  induction L with
  | nil => intro m0; exact ⟨le_refl _, by simp, Or.inl rfl⟩
  | cons x L ih =>
    intro m0
    by_cases hc : P x ∧ f x > m0
    · have hcons : foldlMaxCond P f (x :: L) m0 = foldlMaxCond P f L (f x) := by
        simp only [foldlMaxCond, List.foldl_cons, if_pos hc]
      obtain ⟨hc1, hc2⟩ := hc
      obtain ⟨h1, h2, h3⟩ := ih (f x)
      rw [hcons]
      refine ⟨by omega, ?_, ?_⟩
      · intro cc hcc hPcc
        rcases List.mem_cons.mp hcc with rfl | hmem
        · exact h1
        · exact h2 cc hmem hPcc
      · rcases h3 with h3 | ⟨cc, hmem, hPc, heq⟩
        · exact Or.inr ⟨x, List.mem_cons_self x L, hc1, h3⟩
        · exact Or.inr ⟨cc, List.mem_cons_of_mem x hmem, hPc, heq⟩
    · have hcons : foldlMaxCond P f (x :: L) m0 = foldlMaxCond P f L m0 := by
        simp only [foldlMaxCond, List.foldl_cons, if_neg hc]
      obtain ⟨h1, h2, h3⟩ := ih m0
      rw [hcons]
      refine ⟨h1, ?_, ?_⟩
      · intro cc hcc hPcc
        rcases List.mem_cons.mp hcc with rfl | hmem
        · have hnlt : ¬ f cc > m0 := fun hlt => hc ⟨hPcc, hlt⟩
          omega
        · exact h2 cc hmem hPcc
      · rcases h3 with h3 | ⟨cc, hmem, hPc, heq⟩
        · exact Or.inl h3
        · exact Or.inr ⟨cc, List.mem_cons_of_mem x hmem, hPc, heq⟩

/-- Claim C8: region extraction over a diff image returns no regions when
the mismatch count is zero, and otherwise (whenever the diff image has a
marked pixel, which the comparison guarantees for a positive count)
returns exactly one axis-aligned bounding box whose x, y, width and
height span the minimum and maximum coordinates of all pixels with
non-zero alpha. -/
theorem c8_region_extraction (diff : Image) (mm : Nat) :
    (mm = 0 → computeRegionsFromDiffMask diff mm = []) ∧
    (mm ≠ 0 →
      ∀ x0 y0, x0 < diff.width → y0 < diff.height → 0 < (pixelAt diff x0 y0).a →
      ∃ b, computeRegionsFromDiffMask diff mm = [b] ∧
        (∀ x y, x < diff.width → y < diff.height → 0 < (pixelAt diff x y).a →
          b.x ≤ (x : Int) ∧ (x : Int) ≤ b.x + b.width - 1 ∧
          b.y ≤ (y : Int) ∧ (y : Int) ≤ b.y + b.height - 1) ∧
        (∃ x y, x < diff.width ∧ y < diff.height ∧ 0 < (pixelAt diff x y).a ∧
          (x : Int) = b.x) ∧
        (∃ x y, x < diff.width ∧ y < diff.height ∧ 0 < (pixelAt diff x y).a ∧
          (x : Int) = b.x + b.width - 1) ∧
        (∃ x y, x < diff.width ∧ y < diff.height ∧ 0 < (pixelAt diff x y).a ∧
          (y : Int) = b.y) ∧
        (∃ x y, x < diff.width ∧ y < diff.height ∧ 0 < (pixelAt diff x y).a ∧
          (y : Int) = b.y + b.height - 1)) := by
  constructor
  · intro h0
    simp [computeRegionsFromDiffMask, h0]
  · intro hmm x0 y0 hx0 hy0 ha0
    obtain ⟨hA1, hA2, hA3⟩ := foldlMinCond_spec (fun c => 0 < (pixelAt diff c.1 c.2).a)
      (fun c => (c.1 : Int)) (allCoords diff) (diff.width : Int)
    obtain ⟨hB1, hB2, hB3⟩ := foldlMinCond_spec (fun c => 0 < (pixelAt diff c.1 c.2).a)
      (fun c => (c.2 : Int)) (allCoords diff) (diff.height : Int)
    obtain ⟨hC1, hC2, hC3⟩ := foldlMaxCond_spec (fun c => 0 < (pixelAt diff c.1 c.2).a)
      (fun c => (c.1 : Int)) (allCoords diff) (-1)
    obtain ⟨hD1, hD2, hD3⟩ := foldlMaxCond_spec (fun c => 0 < (pixelAt diff c.1 c.2).a)
      (fun c => (c.2 : Int)) (allCoords diff) (-1)
    set A := foldlMinCond (fun c => 0 < (pixelAt diff c.1 c.2).a)
      (fun c => (c.1 : Int)) (allCoords diff) (diff.width : Int) with hAdef
    set B := foldlMinCond (fun c => 0 < (pixelAt diff c.1 c.2).a)
      (fun c => (c.2 : Int)) (allCoords diff) (diff.height : Int) with hBdef
    set C := foldlMaxCond (fun c => 0 < (pixelAt diff c.1 c.2).a)
      (fun c => (c.1 : Int)) (allCoords diff) (-1) with hCdef
    set D := foldlMaxCond (fun c => 0 < (pixelAt diff c.1 c.2).a)
      (fun c => (c.2 : Int)) (allCoords diff) (-1) with hDdef
    have hm0 : (x0, y0) ∈ allCoords diff := (mem_allCoords diff (x0, y0)).mpr ⟨hx0, hy0⟩
    have hAx0 : A ≤ (x0 : Int) := hA2 (x0, y0) hm0 ha0
    have hBy0 : B ≤ (y0 : Int) := hB2 (x0, y0) hm0 ha0
    have hCx0 : (x0 : Int) ≤ C := hC2 (x0, y0) hm0 ha0
    have hDy0 : (y0 : Int) ≤ D := hD2 (x0, y0) hm0 ha0
    have hguard : ¬ (C < 0 ∨ D < 0) := by
      push_neg
      constructor <;> omega
    have hres : computeRegionsFromDiffMask diff mm = [⟨A, B, C - A + 1, D - B + 1⟩] := by
      rw [computeRegionsFromDiffMask, if_neg hmm,
        scanStep_foldl_decompose diff (allCoords diff)
          (diff.width : Int) (diff.height : Int) (-1) (-1)]
      rw [← hAdef, ← hBdef, ← hCdef, ← hDdef]
      rw [if_neg hguard]
    refine ⟨⟨A, B, C - A + 1, D - B + 1⟩, hres, ?_, ?_, ?_, ?_, ?_⟩
    · intro x y hx hy ha
      have hmxy : (x, y) ∈ allCoords diff := (mem_allCoords diff (x, y)).mpr ⟨hx, hy⟩
      have h1 := hA2 (x, y) hmxy ha
      have h2 := hC2 (x, y) hmxy ha
      have h3 := hB2 (x, y) hmxy ha
      have h4 := hD2 (x, y) hmxy ha
      refine ⟨h1, ?_, h3, ?_⟩
      · show (x : Int) ≤ A + (C - A + 1) - 1
        omega
      · show (y : Int) ≤ B + (D - B + 1) - 1
        omega
    · rcases hA3 with hbase | ⟨c, hmem, hPc, heq⟩
      · omega
      · obtain ⟨hcx, hcy⟩ := (mem_allCoords diff c).mp hmem
        exact ⟨c.1, c.2, hcx, hcy, hPc, heq.symm⟩
    · rcases hC3 with hbase | ⟨c, hmem, hPc, heq⟩
      · omega
      · obtain ⟨hcx, hcy⟩ := (mem_allCoords diff c).mp hmem
        refine ⟨c.1, c.2, hcx, hcy, hPc, ?_⟩
        show (c.1 : Int) = A + (C - A + 1) - 1
        omega
    · rcases hB3 with hbase | ⟨c, hmem, hPc, heq⟩
      · omega
      · obtain ⟨hcx, hcy⟩ := (mem_allCoords diff c).mp hmem
        exact ⟨c.1, c.2, hcx, hcy, hPc, heq.symm⟩
    · rcases hD3 with hbase | ⟨c, hmem, hPc, heq⟩
      · omega
      · obtain ⟨hcx, hcy⟩ := (mem_allCoords diff c).mp hmem
        refine ⟨c.1, c.2, hcx, hcy, hPc, ?_⟩
        show (c.2 : Int) = B + (D - B + 1) - 1
        omega

/-- Witness for C8 on a concrete 2x2 diff image with one marked pixel at
(1, 0), and on a zero mismatch count. -/
theorem c8_region_extraction_witness :
    computeRegionsFromDiffMask c8EmptyImage 0 = [] ∧
    (∃ b, computeRegionsFromDiffMask c8DiffImage 1 = [b] ∧
      (∀ x y, x < c8DiffImage.width → y < c8DiffImage.height →
        0 < (pixelAt c8DiffImage x y).a →
        b.x ≤ (x : Int) ∧ (x : Int) ≤ b.x + b.width - 1 ∧
        b.y ≤ (y : Int) ∧ (y : Int) ≤ b.y + b.height - 1) ∧
      (∃ x y, x < c8DiffImage.width ∧ y < c8DiffImage.height ∧
        0 < (pixelAt c8DiffImage x y).a ∧ (x : Int) = b.x) ∧
      (∃ x y, x < c8DiffImage.width ∧ y < c8DiffImage.height ∧
        0 < (pixelAt c8DiffImage x y).a ∧ (x : Int) = b.x + b.width - 1) ∧
      (∃ x y, x < c8DiffImage.width ∧ y < c8DiffImage.height ∧
        0 < (pixelAt c8DiffImage x y).a ∧ (y : Int) = b.y) ∧
      (∃ x y, x < c8DiffImage.width ∧ y < c8DiffImage.height ∧
        0 < (pixelAt c8DiffImage x y).a ∧ (y : Int) = b.y + b.height - 1)) :=
  ⟨(c8_region_extraction c8EmptyImage 0).1 rfl,
    (c8_region_extraction c8DiffImage 1).2 (by decide) 1 0 (by decide) (by decide)
      (by decide)⟩

/-! ### Path and filesystem lemmas for the diff engine -/

lemma strAppend_left_cancel (a x y : String) : a ++ x = a ++ y ↔ x = y := by
  constructor
  · intro h
    apply String.ext
    have hd := congrArg String.data h
    simp only [String.data_append] at hd
    exact List.append_cancel_left hd
  · intro h
    rw [h]

lemma shotPath_inj (cwd x y : String) : shotPath cwd x = shotPath cwd y ↔ x = y := by
  unfold shotPath
  exact strAppend_left_cancel _ x y

lemma headIsSlash_append (a b : String) (h : headIsSlash a = true) :
    headIsSlash (a ++ b) = true := by
  unfold headIsSlash at h ⊢
  cases hd : a.data with
  | nil => rw [hd] at h; simp at h
  | cons c rest =>
    rw [hd] at h
    rw [String.data_append, hd]
    exact h

lemma fileAtPath_shotPath (st : FsState) (cwd name : String) :
    fileAtPath st cwd (shotPath cwd name) = shotNamed st name := by
  unfold fileAtPath shotNamed
  have hpred : (fun e : String × Image => decide (shotPath cwd e.1 = shotPath cwd name)) =
      (fun e : String × Image => decide (e.1 = name)) := by
    funext e
    exact decide_eq_decide.mpr (shotPath_inj cwd e.1 name)
  rw [hpred]

lemma shotNamed_writeShot_self (st : FsState) (n : String) (img : Image) :
    shotNamed (writeShot st n img) n = some img := by
  simp [shotNamed, writeShot, List.find?]

lemma find?_filter_ne (l : List (String × Image)) (n m : String) (h : ¬ m = n) :
    (l.filter (fun e => !decide (e.1 = n))).find? (fun e => decide (e.1 = m)) =
      l.find? (fun e => decide (e.1 = m)) := by
  induction l with
  | nil => rfl
  | cons e l ih =>
    by_cases hen : e.1 = n
    · have h1 : (e :: l).filter (fun e => !decide (e.1 = n)) =
          l.filter (fun e => !decide (e.1 = n)) := by
        simp [List.filter, hen]
      have h2 : (e :: l).find? (fun e => decide (e.1 = m)) =
          l.find? (fun e => decide (e.1 = m)) := by
        have : ¬ e.1 = m := by rw [hen]; intro hc; exact h hc.symm
        simp [List.find?, this]
      rw [h1, h2, ih]
    · have h1 : (e :: l).filter (fun e => !decide (e.1 = n)) =
          e :: l.filter (fun e => !decide (e.1 = n)) := by
        simp [List.filter, hen]
      rw [h1]
      by_cases hem : e.1 = m
      · simp [List.find?, hem]
      · simp only [List.find?, hem, decide_False]
        exact ih

lemma shotNamed_writeShot_of_ne (st : FsState) (n m : String) (img : Image)
    (h : ¬ m = n) : shotNamed (writeShot st n img) m = shotNamed st m := by
  unfold shotNamed writeShot
  have hn : ¬ (n = m) := fun hc => h hc.symm
  simp only [List.find?, hn, decide_False]
  rw [find?_filter_ne st.shots n m h]

/-- The content found for the canonical baseline name after the capture
write of a second run is still the just-written baseline image, whatever
the capture file name is. -/
lemma shotNamed_baseline_after_capture (st : FsState) (cur : String) (img : Image)
    (hb : shotNamed st "baseline.png" = some img) :
    shotNamed (writeShot st cur img) "baseline.png" = some img := by
  by_cases hc : ("baseline.png" : String) = cur
  · rw [← hc]
    exact shotNamed_writeShot_self st "baseline.png" img
  · rw [shotNamed_writeShot_of_ne st cur "baseline.png" img hc]
    exact hb

lemma regions_of_zero (diff : Image) : computeRegionsFromDiffMask diff 0 = [] := by
  simp [computeRegionsFromDiffMask]

/-- Comparing an image against itself succeeds with zero mismatch, a zero
ratio and no regions. -/
lemma computeDiff_self (img : Image) (t : Frac) :
    computeDiff img img t =
      .ok ⟨0, ⟨0, ((img.width * img.height : Nat) : Int)⟩, [],
        pixelmatchDiffImage img img t⟩ := by
  simp only [computeDiff, ne_eq, not_true_eq_false, or_self, if_false,
    pixelmatchCount_self, regions_of_zero]
  simp

/-- State facts holding after every successful takeDiff, in either
branch: the marker records the canonical baseline path, the canonical
baseline image holds the just-captured render, the reported threshold is
the effective one, and exactly one manifest record was appended carrying
that threshold. -/
lemma takeDiff_post (pd : String → Option Int) (st : FsState) (opts : DiffOptions)
    (img : Image) (now url : String) (r : DiffResult) (st' : FsState)
    (h : takeDiff pd st opts img now url = .ok (r, st')) :
    st'.marker = .parsed (baselineDefaultPath opts.cwd) now ∧
    shotNamed st' "baseline.png" = some img ∧
    r.threshold = opts.threshold.getD defaultThreshold ∧
    ∃ rec, st'.manifest = st.manifest ++ [rec] ∧
      rec.threshold = opts.threshold.getD defaultThreshold := by
  simp only [takeDiff] at h
  split at h
  · exact absurd h (by simp)
  · split at h
    · -- first-run branch: the baseline is initialized from the capture
      injection h with h
      injection h with hr hst
      subst hr
      subst hst
      refine ⟨rfl, ?_, rfl, ?_⟩
      · exact shotNamed_writeShot_self _ "baseline.png" img
      · exact ⟨_, rfl, rfl⟩
    · -- normal branch
      split at h
      · exact absurd h (by simp)
      · split at h
        · exact absurd h (by simp)
        · injection h with h
          injection h with hr hst
          subst hr
          subst hst
          refine ⟨rfl, ?_, rfl, ?_⟩
          · exact shotNamed_writeShot_self _ "baseline.png" img
          · exact ⟨_, rfl, rfl⟩

/-- Baseline resolution through the marker: with no explicit since, a
parsed marker whose absolute recorded path exists resolves to that path. -/
lemma resolveBaselinePath_marker (pd : String → Option Int) (st : FsState)
    (cwd bp ts : String) (hm : st.marker = .parsed bp ts)
    (habs : headIsSlash bp = true) (hex : pathExists st cwd bp = true) :
    resolveBaselinePath pd st cwd none = .ok (some bp) := by
  simp [resolveBaselinePath, hm, toAbsolutePath, habs, hex]

/-- A takeDiff run whose state already holds the canonical baseline
pointer and image for the identical current render succeeds with zero
mismatch and no regions. -/
lemma takeDiff_second_run (pd : String → Option Int) (st : FsState) (opts : DiffOptions)
    (img : Image) (now url ts : String)
    (hsince : opts.since = none)
    (hm : st.marker = .parsed (baselineDefaultPath opts.cwd) ts)
    (hcwd : headIsSlash opts.cwd = true)
    (hb : shotNamed st "baseline.png" = some img) :
    ∃ r2 st2, takeDiff pd st opts img now url = .ok (r2, st2) ∧
      r2.mismatchedPixels = 0 ∧ r2.regions = [] := by
  have habs : headIsSlash (baselineDefaultPath opts.cwd) = true := by
    unfold baselineDefaultPath shotPath screenshotsDir
    exact headIsSlash_append _ _ (headIsSlash_append _ _ (headIsSlash_append _ _ hcwd))
  have hex : pathExists st opts.cwd (baselineDefaultPath opts.cwd) = true := by
    unfold pathExists
    rw [show baselineDefaultPath opts.cwd = shotPath opts.cwd "baseline.png" from rfl,
      fileAtPath_shotPath, hb]
    rfl
  have hres := resolveBaselinePath_marker pd st opts.cwd (baselineDefaultPath opts.cwd)
    ts hm habs hex
  have hfile : fileAtPath (writeShot st (sanitizeTs now ++ ".png") img) opts.cwd
      (baselineDefaultPath opts.cwd) = some img := by
    rw [show baselineDefaultPath opts.cwd = shotPath opts.cwd "baseline.png" from rfl,
      fileAtPath_shotPath]
    exact shotNamed_baseline_after_capture st _ img hb
  simp only [takeDiff, hsince, hres, hfile, computeDiff_self]
  exact ⟨_, _, rfl, rfl, rfl⟩

/-- Claim C1: after every successful diff, the baseline pointer and the
canonical baseline image are overwritten to the just-captured current
image, so a second diff run with the unchanged render (same selector and
viewport give the same capture) and default since succeeds with zero
mismatched pixels. -/
theorem c1_auto_baseline_roundtrip (pd : String → Option Int) (st : FsState)
    (opts : DiffOptions) (img : Image) (now1 url : String) (r1 : DiffResult)
    (st1 : FsState) (hcwd : headIsSlash opts.cwd = true)
    (h1 : takeDiff pd st opts img now1 url = .ok (r1, st1)) :
    st1.marker = .parsed (baselineDefaultPath opts.cwd) now1 ∧
    shotNamed st1 "baseline.png" = some img ∧
    ∀ (opts2 : DiffOptions) (now2 : String), opts2.cwd = opts.cwd →
      opts2.since = none →
      ∃ r2 st2, takeDiff pd st1 opts2 img now2 url = .ok (r2, st2) ∧
        r2.mismatchedPixels = 0 ∧ r2.regions = [] := by
  obtain ⟨hm, hb, _, _⟩ := takeDiff_post pd st opts img now1 url r1 st1 h1
  refine ⟨hm, hb, ?_⟩
  intro opts2 now2 hc2 hs2
  refine takeDiff_second_run pd st1 opts2 img now2 url now1 hs2 ?_ ?_ hb
  · rw [hc2]
    exact hm
  · rw [hc2]
    exact hcwd

/-- Claim C2: a diff invocation for which no baseline resolves succeeds,
initializes the baseline from the current capture (canonical path written
and recorded in the marker) and reports baselineInitialized with zero
mismatch, zero ratio and no regions. -/
theorem c2_first_diff_initializes (pd : String → Option Int) (st : FsState)
    (opts : DiffOptions) (img : Image) (now url : String)
    (hres : resolveBaselinePath pd st opts.cwd opts.since = .ok none) :
    ∃ r st', takeDiff pd st opts img now url = .ok (r, st') ∧
      r.baselineInitialized = true ∧ r.mismatchedPixels = 0 ∧
      r.mismatchedRatio = fracZero ∧ r.regions = [] ∧
      st'.marker = .parsed (baselineDefaultPath opts.cwd) now ∧
      shotNamed st' "baseline.png" = some img := by
  simp only [takeDiff, hres]
  exact ⟨_, _, rfl, rfl, rfl, rfl, rfl, rfl, shotNamed_writeShot_self _ _ img⟩

/-- Claim C10: omitting the threshold parameter is the same diff
invocation as passing 0.1 explicitly, and both the returned result and
the appended manifest record carry threshold 0.1. -/
theorem c10_default_threshold (pd : String → Option Int) (st : FsState)
    (opts : DiffOptions) (img : Image) (now url : String)
    (hthr : opts.threshold = none) :
    takeDiff pd st opts img now url =
      takeDiff pd st { opts with threshold := some defaultThreshold } img now url ∧
    (∀ r st', takeDiff pd st opts img now url = .ok (r, st') →
      r.threshold = defaultThreshold ∧
      ∃ rec, st'.manifest = st.manifest ++ [rec] ∧ rec.threshold = defaultThreshold) := by
  constructor
  · obtain ⟨cwd, sel, since, thr⟩ := opts
    simp only at hthr
    subst hthr
    rfl
  · intro r st' h
    obtain ⟨_, _, hrt, rec, hman, hrec⟩ := takeDiff_post pd st opts img now url r st' h
    rw [hthr] at hrt hrec
    exact ⟨hrt, rec, hman, hrec⟩

/-- Witness for C1: a concrete first run on an empty artifacts state,
then the round trip at the same cwd with default since. -/
theorem c1_auto_baseline_roundtrip_witness :
    headIsSlash diffWitOpts.cwd = true ∧
    takeDiff diffWitPd diffWitFs diffWitOpts diffWitImg "T1" "u" =
      .ok (diffWitRes, diffWitSt) ∧
    (diffWitSt.marker = .parsed (baselineDefaultPath diffWitOpts.cwd) "T1" ∧
     shotNamed diffWitSt "baseline.png" = some diffWitImg ∧
     ∀ (opts2 : DiffOptions) (now2 : String), opts2.cwd = diffWitOpts.cwd →
       opts2.since = none →
       ∃ r2 st2, takeDiff diffWitPd diffWitSt opts2 diffWitImg now2 "u" = .ok (r2, st2) ∧
         r2.mismatchedPixels = 0 ∧ r2.regions = []) :=
  ⟨by decide, by decide,
    c1_auto_baseline_roundtrip diffWitPd diffWitFs diffWitOpts diffWitImg "T1" "u"
      diffWitRes diffWitSt (by decide) (by decide)⟩

/-- Witness for C2: on an empty artifacts state no baseline resolves, and
the first diff initializes the baseline and succeeds. -/
theorem c2_first_diff_initializes_witness :
    resolveBaselinePath diffWitPd diffWitFs diffWitOpts.cwd diffWitOpts.since = .ok none ∧
    (∃ r st', takeDiff diffWitPd diffWitFs diffWitOpts diffWitImg "T2" "u" = .ok (r, st') ∧
      r.baselineInitialized = true ∧ r.mismatchedPixels = 0 ∧
      r.mismatchedRatio = fracZero ∧ r.regions = [] ∧
      st'.marker = .parsed (baselineDefaultPath diffWitOpts.cwd) "T2" ∧
      shotNamed st' "baseline.png" = some diffWitImg) :=
  ⟨by decide,
    c2_first_diff_initializes diffWitPd diffWitFs diffWitOpts diffWitImg "T2" "u"
      (by decide)⟩

/-- Witness for C10: a concrete diff request omitting the threshold. -/
theorem c10_default_threshold_witness :
    diffWitOpts.threshold = none ∧
    (takeDiff diffWitPd diffWitFs diffWitOpts diffWitImg "T1" "u" =
      takeDiff diffWitPd diffWitFs { diffWitOpts with threshold := some defaultThreshold }
        diffWitImg "T1" "u" ∧
     (∀ r st', takeDiff diffWitPd diffWitFs diffWitOpts diffWitImg "T1" "u" = .ok (r, st') →
        r.threshold = defaultThreshold ∧
        ∃ rec, st'.manifest = diffWitFs.manifest ++ [rec] ∧
          rec.threshold = defaultThreshold)) :=
  ⟨rfl, c10_default_threshold diffWitPd diffWitFs diffWitOpts diffWitImg "T1" "u" rfl⟩

end Wig
